import Mathlib

/-!
# Verification of the humiolib query-job polling client (`humiolib/QueryJob.py`)

This file gives a shallow embedding of the polling state machine of
`QueryJob.py` and proves properties of it.

Modelling choices:

* The transport collaborator (`WebCaller.call_rest`) is external to the module
  (it lives outside the embedded file); per the design document it performs one
  HTTP call and either returns a parsed JSON body or raises a typed HTTP error
  carrying a status code and a message.  We model it by an *oracle*: a list of
  `CallOutcome`s, one per transport call the code makes, consumed in order.
  Each outcome records the wall-clock time sampled at the pacing gate, the
  result of the call (`Except HttpError Response`), and the wall-clock time
  sampled right after a successful call returns.
* Wall-clock time (`time.time()`, a real number of seconds) is modelled by `ℚ`.
* A Python `dict` of headers is modelled by an association list with
  unique-key-preserving insertion (`dictInsert` / `dictUpdate` mirror
  `dict.__setitem__` / `dict.update`).
* Raising an exception is modelled by returning `Except.error`; the mutable
  fields of the job object are threaded explicitly as a `JobState`, returned
  alongside the result (on an exception the fields hold whatever value they
  had when the exception was raised, exactly as in Python).
* Running out of oracle entries (a transport call for which the scenario
  provides no outcome) is reported as `PollError.noResponse`; it corresponds
  to no behaviour of the code, which would simply perform another real call.
-/

/-- Headers (and generally string-keyed Python dicts) as association lists. -/
abbrev Headers := List (String × String)

/-- `d[k] = v` for a Python dict: overwrite the entry if the key is present,
append it otherwise.  Keeps keys unique when they were unique. -/
def dictInsert (d : Headers) (k v : String) : Headers :=
  if d.any (fun p => p.1 = k) then
    d.map (fun p => if p.1 = k then (k, v) else p)
  else
    d ++ [(k, v)]

/-- `d.update(other)` for Python dicts: insert every entry of `other` into
`d`, in order, overwriting on key collision. -/
def dictUpdate (d other : Headers) : Headers :=
  other.foldl (fun acc p => dictInsert acc p.1 p.2) d

/-- Dictionary lookup: value of the first entry with the given key. -/
def dictGet (d : Headers) (k : String) : Option String :=
  (d.find? (fun p => p.1 = k)).map Prod.snd

/-- The typed HTTP error raised by the transport collaborator
(`HumioHTTPException`): a status code and a message. -/
structure HttpError where
  status_code : Nat
  message : String
deriving DecidableEq, Repr

/-- The fields of the poll response's `metaData` object that the engine reads
(the server may send more; the engine reads only these). -/
structure MetaData where
  isAggregate : Bool
  workDone : Int
  totalWork : Int
  pollAfter : Int
deriving DecidableEq, Repr

/-- The parsed JSON body of a successful poll response: the fields the engine
reads (`events`, `metaData`, `done`, `cancelled`).  Events are opaque records,
modelled as strings. -/
structure Response where
  events : List String
  metaData : MetaData
  done : Bool
  cancelled : Bool
deriving DecidableEq, Repr

/-- `PollResult`: the unit of data returned to the caller per poll
(`QueryJob.py`, class `PollResult`). -/
structure PollResult where
  events : List String
  metadata : MetaData
deriving DecidableEq, Repr

/-- The errors the embedded code can signal.  `expired` is
`HumioQueryJobExpiredException`, `http` a re-raised `HumioHTTPException`,
`exhausted` is `HumioQueryJobExhaustedException`, and `noResponse` is the
modelling artefact for an exhausted transport oracle (see the file header). -/
inductive PollError where
  | expired (message : String)
  | http (status_code : Nat) (message : String)
  | exhausted
  | noResponse
deriving DecidableEq, Repr

deriving instance DecidableEq for Except

/-- One transport call as seen by the oracle: the time sampled at the pacing
gate (`time.time()` in `_wait_till_next_poll`), the call's result, and the
time sampled after a successful call returns (`time.time()` on the line
setting `time_at_last_poll`). -/
structure CallOutcome where
  gateTime : ℚ
  result : Except HttpError Response
  doneTime : ℚ
deriving DecidableEq, Repr

/-- The request data of one transport call issued by the embedded code. -/
structure TransportCall where
  verb : String
  path : String
  headers : Headers
deriving DecidableEq, Repr

/-- The mutable fields of a `BaseQueryJob` object together with its immutable
configuration (`BaseQueryJob.__init__`). -/
structure JobState where
  query_id : String
  is_done : Bool
  is_cancelled : Bool
  time_at_last_poll : ℚ
  wait_time : ℚ
  base_url : String
  repository : String
  user_token : String
deriving DecidableEq, Repr

/-- `BaseQueryJob.__init__`: fresh state for a given configuration. -/
def JobState.init (query_id base_url repository user_token : String) : JobState :=
  { query_id := query_id
    is_done := false
    is_cancelled := false
    time_at_last_poll := 0
    wait_time := 0
    base_url := base_url
    repository := repository
    user_token := user_token }

/-- `BaseQueryJob._default_user_headers`. -/
def BaseQueryJob.default_user_headers (st : JobState) : Headers :=
  [("Content-Type", "application/json"),
   ("Authorization", "Bearer " ++ st.user_token)]

/-- The relative URL built by `BaseQueryJob.poll` (and the live job's
disposal): `"dataspaces/{}/queryjobs/{}".format(repository, query_id)`. -/
def BaseQueryJob.link (st : JobState) : String :=
  "dataspaces/" ++ st.repository ++ "/queryjobs/" ++ st.query_id

/-- `BaseQueryJob._wait_till_next_poll`, as the length of the sleep it
performs when entered at time `now`: `time_since_last_poll = now -
time_at_last_poll`; if that is `< wait_time` the code sleeps
`(wait_time - time_since_last_poll) / 1000.0` and otherwise does not sleep. -/
def BaseQueryJob.wait_till_next_poll_delay (st : JobState) (now : ℚ) : ℚ :=
  let time_since_last_poll := now - st.time_at_last_poll
  if time_since_last_poll < st.wait_time then
    (st.wait_time - time_since_last_poll) / 1000
  else 0

/-- The time at which a transport call gated at time `now` actually happens:
the gate entry time plus the sleep performed by `_wait_till_next_poll`. -/
def BaseQueryJob.transport_call_time (st : JobState) (now : ℚ) : ℚ :=
  now + BaseQueryJob.wait_till_next_poll_delay st now

/-- `BaseQueryJob._aggregate_query_is_not_done`. -/
def aggregate_query_is_not_done (metadata : MetaData) : Bool :=
  metadata.isAggregate && metadata.workDone != metadata.totalWork

/-- `BaseQueryJob._fetch_next_segment`: one transport call (`"get"` on the
given link with the given headers).  On a typed HTTP error with status code
404 it raises `HumioQueryJobExpiredException`; on any other status code the
original error is re-raised; in both cases the mutable fields are untouched.
On success `wait_time`, `is_done`, `is_cancelled` and `time_at_last_poll` are
updated and a `PollResult` of the response's events and metadata is built. -/
def BaseQueryJob.fetch_next_segment (st : JobState) (link : String)
    (headers : Headers) (o : CallOutcome) :
    Except PollError PollResult × JobState × TransportCall :=
  let call : TransportCall := { verb := "get", path := link, headers := headers }
  match o.result with
  | Except.error e =>
    if e.status_code = 404 then
      (Except.error (PollError.expired e.message), st, call)
    else
      (Except.error (PollError.http e.status_code e.message), st, call)
  | Except.ok response =>
    let st' : JobState :=
      { st with
        wait_time := (response.metaData.pollAfter : ℚ)
        is_done := response.done
        is_cancelled := response.cancelled
        time_at_last_poll := o.doneTime }
    (Except.ok { events := response.events, metadata := response.metaData },
     st', call)

/-- The `while self._aggregate_query_is_not_done(poll_result.metadata)` loop
of `BaseQueryJob.poll`: while the current result's metadata says the
aggregate query is unfinished, fetch another segment.  Returns the final
result, the final state, and the list of transport calls issued by the loop. -/
def BaseQueryJob.aggregateLoop (link : String) (headers : Headers) :
    List CallOutcome → JobState → PollResult →
    Except PollError PollResult × JobState × List TransportCall
  | [], st, pr =>
    if aggregate_query_is_not_done pr.metadata then
      (Except.error PollError.noResponse, st, [])
    else
      (Except.ok pr, st, [])
  | o :: rest, st, pr =>
    if aggregate_query_is_not_done pr.metadata then
      match BaseQueryJob.fetch_next_segment st link headers o with
      | (Except.error e, st', call) => (Except.error e, st', [call])
      | (Except.ok pr', st', call) =>
        let r := BaseQueryJob.aggregateLoop link headers rest st' pr'
        (r.1, r.2.1, call :: r.2.2)
    else
      (Except.ok pr, st, [])

/-- `BaseQueryJob.poll`: build the link, merge the default headers with the
caller-supplied ones (caller wins on collision), fetch a segment, then apply
the aggregate completion loop or the streaming warm-up re-fetch. -/
def BaseQueryJob.poll (st : JobState) (userHeaders : Headers)
    (oracle : List CallOutcome) :
    Except PollError PollResult × JobState × List TransportCall :=
  let link := BaseQueryJob.link st
  let headers := dictUpdate (BaseQueryJob.default_user_headers st) userHeaders
  match oracle with
  | [] => (Except.error PollError.noResponse, st, [])
  | o :: rest =>
    match BaseQueryJob.fetch_next_segment st link headers o with
    | (Except.error e, st1, call) => (Except.error e, st1, [call])
    | (Except.ok pr, st1, call) =>
      if pr.metadata.isAggregate then
        let r := BaseQueryJob.aggregateLoop link headers rest st1 pr
        (r.1, r.2.1, call :: r.2.2)
      else
        if pr.metadata.workDone == 0 && !st1.is_done then
          match rest with
          | [] => (Except.error PollError.noResponse, st1, [call])
          | o2 :: _ =>
            match BaseQueryJob.fetch_next_segment st1 link headers o2 with
            | (res2, st2, call2) => (res2, st2, [call, call2])
        else
          (Except.ok pr, st1, [call])

/-- `BaseQueryJob.poll_until_done`: the generator's body is the single
statement `yield self.poll()`, so iterating it runs `poll()` (with no
arguments) once and yields its result, then stops.  We model the generator by
the list of values it yields (or the exception `poll()` raises), together
with the final state and the transport calls issued. -/
def BaseQueryJob.poll_until_done (st : JobState) (oracle : List CallOutcome) :
    Except PollError (List PollResult) × JobState × List TransportCall :=
  match BaseQueryJob.poll st [] oracle with
  | (Except.ok pr, st', calls) => (Except.ok [pr], st', calls)
  | (Except.error e, st', calls) => (Except.error e, st', calls)

/-- `StaticQueryJob.poll`: raise `HumioQueryJobExhaustedException` if
`is_done` is already true (no transport call), otherwise `super().poll()` —
note: called with no arguments, so caller-supplied kwargs are dropped. -/
def StaticQueryJob.poll (st : JobState) (_userHeaders : Headers)
    (oracle : List CallOutcome) :
    Except PollError PollResult × JobState × List TransportCall :=
  if st.is_done then
    (Except.error PollError.exhausted, st, [])
  else
    BaseQueryJob.poll st [] oracle

/-- `LiveQueryJob.poll` is inherited unchanged from `BaseQueryJob`. -/
def LiveQueryJob.poll (st : JobState) (userHeaders : Headers)
    (oracle : List CallOutcome) :
    Except PollError PollResult × JobState × List TransportCall :=
  BaseQueryJob.poll st userHeaders oracle

/-- `LiveQueryJob.__del__`: one `"delete"` transport call on the job's
endpoint with the default headers (no pacing gate); a typed HTTP error from
the call is caught and discarded, so disposal signals no error (`none`).  The
response body is ignored, hence `Unit`. -/
def LiveQueryJob.del (st : JobState) (outcome : Except HttpError Unit) :
    Option PollError × TransportCall :=
  let call : TransportCall :=
    { verb := "delete"
      path := BaseQueryJob.link st
      headers := BaseQueryJob.default_user_headers st }
  match outcome with
  | Except.error _ => (none, call)
  | Except.ok _ => (none, call)

/-! ## Concrete sample data used by witnesses and counterexamples -/

/-- A fresh job handle for query id `"q"` on repository `"r"`. -/
def sampleJob : JobState := JobState.init "q" "http://localhost" "r" "t"

/-- A streaming (non-aggregate) response with nonzero progress. -/
def streamResponse (ev : List String) : Response :=
  { events := ev
    metaData := { isAggregate := false, workDone := 5, totalWork := 10, pollAfter := 10 }
    done := false
    cancelled := false }

/-- An aggregate response with the given progress counters. -/
def aggResponse (w t : Int) : Response :=
  { events := ["e"]
    metaData := { isAggregate := true, workDone := w, totalWork := t, pollAfter := 10 }
    done := false
    cancelled := false }

/-- A streaming response with `workDone = 0` and the job not done. -/
def warmupResponse : Response :=
  { events := ["w"]
    metaData := { isAggregate := false, workDone := 0, totalWork := 10, pollAfter := 7 }
    done := false
    cancelled := false }

/-- First oracle entry of the streaming warm-up scenario. -/
def o1W : CallOutcome := { gateTime := 0, result := Except.ok warmupResponse, doneTime := 1 }

/-- Second oracle entry of the streaming warm-up scenario. -/
def o2W : CallOutcome := { gateTime := 2, result := Except.ok (streamResponse ["e2"]), doneTime := 3 }

/-- A handle whose previous poll already reported the job done. -/
def doneJob : JobState := { sampleJob with is_done := true }

/-- Transport oracle with two successful streaming responses, neither
reporting the job done. -/
def c7oracle : List CallOutcome :=
  [{ gateTime := 0, result := Except.ok (streamResponse ["e1"]), doneTime := 1 },
   { gateTime := 2, result := Except.ok (streamResponse ["e2"]), doneTime := 3 }]

/-- The job state right after a first successful fetch that completed at time
100 and carried `pollAfter = 1000`. -/
def pacedJob : JobState :=
  (BaseQueryJob.fetch_next_segment sampleJob (BaseQueryJob.link sampleJob)
    (BaseQueryJob.default_user_headers sampleJob)
    { gateTime := 0
      result := Except.ok
        { events := ["a"]
          metaData := { isAggregate := false, workDone := 5, totalWork := 10, pollAfter := 1000 }
          done := false
          cancelled := false }
      doneTime := 100 }).2.1

/-! ## Helper lemmas -/

theorem dictGet_cons (p : String × String) (t : Headers) (k : String) :
    dictGet (p :: t) k = if p.1 = k then some p.2 else dictGet t k := by
  by_cases h : p.1 = k <;>
    simp [dictGet, List.find?_cons_of_pos, List.find?_cons_of_neg, h]

theorem dictGet_map_replace (d : Headers) (k v k' : String) :
    dictGet (d.map (fun p => if p.1 = k then (k, v) else p)) k' =
      if k = k' then (if d.any (fun p => p.1 = k) then some v else none)
      else dictGet d k' := by
  induction d with
  | nil => by_cases hk : k = k' <;> simp [dictGet, hk]
  | cons p t ih =>
    simp only [List.map_cons, List.any_cons]
    rw [dictGet_cons, dictGet_cons]
    by_cases hp : p.1 = k
    · by_cases hk : k = k'
      · subst hk
        simp [hp, ih]
      · have hpk' : ¬ p.1 = k' := by rw [hp]; exact hk
        simp [hp, hk, hpk', ih]
    · by_cases hpk' : p.1 = k'
      · have hk : ¬ k = k' := fun h => hp (h ▸ hpk')
        have hk' : ¬ k' = k := fun h => hk h.symm
        simp [hp, hk, hpk', hk']
      · by_cases hk : k = k'
        · subst hk
          simp only [hpk', if_false, ih, if_pos rfl]
          simp
          rw [Bool.false_or]
        · simp [hp, hpk', hk, ih]

theorem dictGet_dictInsert (d : Headers) (k v k' : String) :
    dictGet (dictInsert d k v) k' = if k = k' then some v else dictGet d k' := by
  by_cases hc : d.any (fun p => p.1 = k)
  · rw [dictInsert, if_pos hc, dictGet_map_replace, hc]
    simp
  · rw [dictInsert, if_neg hc]
    have hnone : d.find? (fun p => decide (p.1 = k)) = none := by
      rw [List.find?_eq_none]
      intro x hx
      simp only [decide_eq_true_eq]
      intro hxk
      exact hc (List.any_eq_true.mpr ⟨x, hx, by simp [hxk]⟩)
    by_cases hk : k = k'
    · subst hk
      simp [dictGet, List.find?_append, hnone]
    · have hsing : List.find? (fun p => decide (p.1 = k')) [(k, v)] = none := by
        simp [hk]
      simp [dictGet, List.find?_append, hsing, hk]

theorem dictGet_dictUpdate_not_key (other : Headers) (d : Headers) (k : String)
    (h : k ∉ other.map Prod.fst) :
    dictGet (dictUpdate d other) k = dictGet d k := by
  induction other generalizing d with
  | nil => rfl
  | cons p t ih =>
    simp only [List.map_cons, List.mem_cons, not_or] at h
    have step : dictUpdate d (p :: t) = dictUpdate (dictInsert d p.1 p.2) t := rfl
    rw [step, ih _ h.2, dictGet_dictInsert, if_neg (fun hc => h.1 hc.symm)]

theorem dictGet_dictUpdate_mem (other : Headers) (d : Headers) (k v : String)
    (hnd : (other.map Prod.fst).Nodup) (hmem : (k, v) ∈ other) :
    dictGet (dictUpdate d other) k = some v := by
  induction other generalizing d with
  | nil => cases hmem
  | cons p t ih =>
    simp only [List.map_cons, List.nodup_cons] at hnd
    have step : dictUpdate d (p :: t) = dictUpdate (dictInsert d p.1 p.2) t := rfl
    rcases List.mem_cons.mp hmem with h | h
    · subst h
      rw [step, dictGet_dictUpdate_not_key t _ k hnd.1, dictGet_dictInsert, if_pos rfl]
    · exact step ▸ ih _ hnd.2 h

theorem fetch_call_eq (st : JobState) (link : String) (headers : Headers) (o : CallOutcome) :
    (BaseQueryJob.fetch_next_segment st link headers o).2.2 =
      { verb := "get", path := link, headers := headers } := by
  unfold BaseQueryJob.fetch_next_segment
  rcases h : o.result with e | r
  · by_cases h4 : e.status_code = 404 <;> simp [h, h4]
  · simp [h]

theorem fetch_error_eq (st : JobState) (link : String) (headers : Headers)
    (o : CallOutcome) (e : HttpError) (h : o.result = Except.error e) :
    BaseQueryJob.fetch_next_segment st link headers o =
      (Except.error (if e.status_code = 404 then PollError.expired e.message
         else PollError.http e.status_code e.message), st,
       { verb := "get", path := link, headers := headers }) := by
  unfold BaseQueryJob.fetch_next_segment
  by_cases h4 : e.status_code = 404 <;> simp [h, h4]

theorem fetch_ok_eq (st : JobState) (link : String) (headers : Headers)
    (o : CallOutcome) (r : Response) (h : o.result = Except.ok r) :
    BaseQueryJob.fetch_next_segment st link headers o =
      (Except.ok { events := r.events, metadata := r.metaData },
       { st with wait_time := (r.metaData.pollAfter : ℚ), is_done := r.done,
                 is_cancelled := r.cancelled, time_at_last_poll := o.doneTime },
       { verb := "get", path := link, headers := headers }) := by
  unfold BaseQueryJob.fetch_next_segment
  simp [h]

theorem aggregateLoop_ok_not_unfinished (link : String) (headers : Headers) :
    ∀ (oracle : List CallOutcome) (st : JobState) (pr pr' : PollResult),
      (BaseQueryJob.aggregateLoop link headers oracle st pr).1 = Except.ok pr' →
      aggregate_query_is_not_done pr'.metadata = false := by
  intro oracle
  induction oracle with
  | nil =>
    intro st pr pr' h
    by_cases hc : aggregate_query_is_not_done pr.metadata = true
    · simp [BaseQueryJob.aggregateLoop, hc] at h
    · simp [BaseQueryJob.aggregateLoop, hc] at h
      rw [← h]
      simpa using hc
  | cons o rest ih =>
    intro st pr pr' h
    by_cases hc : aggregate_query_is_not_done pr.metadata = true
    · simp only [BaseQueryJob.aggregateLoop, hc, if_true] at h
      split at h
      · simp at h
      · exact ih _ _ _ h
    · simp [BaseQueryJob.aggregateLoop, hc] at h
      rw [← h]
      simpa using hc

theorem aggregateLoop_trace (link : String) (headers : Headers) :
    ∀ (oracle : List CallOutcome) (st : JobState) (pr : PollResult),
      ∀ c ∈ (BaseQueryJob.aggregateLoop link headers oracle st pr).2.2,
        c = { verb := "get", path := link, headers := headers } := by
  intro oracle
  induction oracle with
  | nil =>
    intro st pr c hc
    by_cases h : aggregate_query_is_not_done pr.metadata = true <;>
      simp [BaseQueryJob.aggregateLoop, h] at hc
  | cons o rest ih =>
    intro st pr c hc
    by_cases h : aggregate_query_is_not_done pr.metadata = true
    · simp only [BaseQueryJob.aggregateLoop, h, if_true] at hc
      split at hc
      case _ e st' call heq =>
        have : call = { verb := "get", path := link, headers := headers } := by
          have h2 := congrArg (fun x => x.2.2) heq
          simpa [fetch_call_eq] using h2.symm
        simp at hc
        rw [hc, this]
      case _ pr1 st' call heq =>
        have hcall : call = { verb := "get", path := link, headers := headers } := by
          have h2 := congrArg (fun x => x.2.2) heq
          simpa [fetch_call_eq] using h2.symm
        simp at hc
        rcases hc with hc | hc
        · rw [hc, hcall]
        · exact ih _ _ c hc
    · simp [BaseQueryJob.aggregateLoop, h] at hc

theorem poll_trace (st : JobState) (uh : Headers) (oracle : List CallOutcome) :
    ∀ c ∈ (BaseQueryJob.poll st uh oracle).2.2,
      c = { verb := "get", path := BaseQueryJob.link st,
            headers := dictUpdate (BaseQueryJob.default_user_headers st) uh } := by
  intro c hc
  cases oracle with
  | nil => simp [BaseQueryJob.poll] at hc
  | cons o rest =>
    simp only [BaseQueryJob.poll] at hc
    split at hc
    next e st1 call heq =>
      have hcall : (BaseQueryJob.fetch_next_segment st (BaseQueryJob.link st)
          (dictUpdate (BaseQueryJob.default_user_headers st) uh) o).2.2 = call :=
        congrArg (fun x => x.2.2) heq
      simp at hc
      rw [hc, ← hcall, fetch_call_eq]
    next pr st1 call heq =>
      have hcall : (BaseQueryJob.fetch_next_segment st (BaseQueryJob.link st)
          (dictUpdate (BaseQueryJob.default_user_headers st) uh) o).2.2 = call :=
        congrArg (fun x => x.2.2) heq
      by_cases hagg : pr.metadata.isAggregate = true
      · simp only [hagg, if_true] at hc
        simp at hc
        rcases hc with hc | hc
        · rw [hc, ← hcall, fetch_call_eq]
        · exact aggregateLoop_trace _ _ _ _ _ c hc
      · simp only [Bool.not_eq_true] at hagg
        simp only [hagg, Bool.false_eq_true, if_false] at hc
        by_cases hw : (pr.metadata.workDone == 0 && !st1.is_done) = true
        · simp only [hw, if_true] at hc
          cases rest with
          | nil =>
            simp at hc
            rw [hc, ← hcall, fetch_call_eq]
          | cons o2 tail =>
            simp at hc
            rcases hc with hc | hc
            · rw [hc, ← hcall, fetch_call_eq]
            · rw [hc, fetch_call_eq]
        · simp only [hw, if_false] at hc
          simp at hc
          rw [hc, ← hcall, fetch_call_eq]

/-! ## Claims -/

/-- C1: for every sequence of polls on a job whose fetched metadata has
`isAggregate = true`, `poll` never returns a `PollResult` whose metadata has
`isAggregate = true` and `workDone ≠ totalWork`: the engine keeps issuing
segment fetches while the most recent segment satisfies
`isAggregate && workDone != totalWork` and returns only a segment for which
that condition fails. -/
theorem c1_aggregate_poll_never_unfinished (st : JobState) (uh : Headers)
    (oracle : List CallOutcome) (pr : PollResult)
    (hok : (BaseQueryJob.poll st uh oracle).1 = Except.ok pr)
    (hagg : ∀ o ∈ oracle,
      (match o.result with
       | Except.ok r => r.metaData.isAggregate
       | Except.error _ => true) = true) :
    aggregate_query_is_not_done pr.metadata = false := by
  cases oracle with
  | nil => simp [BaseQueryJob.poll] at hok
  | cons o rest =>
    simp only [BaseQueryJob.poll] at hok
    split at hok
    next e st1 call heq => simp at hok
    next pr1 st1 call heq =>
      rcases hro : o.result with e | r
      · rw [fetch_error_eq st _ _ o e hro] at heq
        simp at heq
      · rw [fetch_ok_eq st _ _ o r hro] at heq
        have hpr1 : pr1 = { events := r.events, metadata := r.metaData } := by
          have h2 := congrArg (fun x => x.1) heq
          simpa using h2.symm
        have hragg : r.metaData.isAggregate = true := by
          have h := hagg o (List.mem_cons_self o rest)
          rw [hro] at h
          exact h
        subst hpr1
        simp only [hragg, if_true] at hok
        exact aggregateLoop_ok_not_unfinished _ _ _ _ _ _ hok

/-- Witness for C1: the two-segment aggregate scenario (`workDone` 3 of 10,
then 10 of 10) ends in a complete aggregate segment. -/
theorem c1_witness :
    aggregate_query_is_not_done (aggResponse 10 10).metaData = false :=
  c1_aggregate_poll_never_unfinished sampleJob []
    [{ gateTime := 0, result := Except.ok (aggResponse 3 10), doneTime := 1 },
     { gateTime := 2, result := Except.ok (aggResponse 10 10), doneTime := 3 }]
    { events := ["e"], metadata := (aggResponse 10 10).metaData }
    (by decide) (by decide)

/-- C2: on a streaming (non-aggregate) poll whose first fetched segment has
`workDone = 0` while the job-global done flag is false, exactly one
additional fetch occurs and its result is returned; if instead `workDone ≠ 0`
or the done flag is true, exactly one fetch occurs in total and its result is
returned as-is. -/
theorem c2_streaming_warmup (st : JobState) (uh : Headers) (o1 o2 : CallOutcome)
    (rest : List CallOutcome) (r1 : Response)
    (h1 : o1.result = Except.ok r1) (hagg : r1.metaData.isAggregate = false) :
    (r1.metaData.workDone = 0 → r1.done = false →
      (BaseQueryJob.poll st uh (o1 :: o2 :: rest)).2.2.length = 2 ∧
      (BaseQueryJob.poll st uh (o1 :: o2 :: rest)).1 =
        (BaseQueryJob.fetch_next_segment
          { st with wait_time := (r1.metaData.pollAfter : ℚ), is_done := r1.done,
                    is_cancelled := r1.cancelled, time_at_last_poll := o1.doneTime }
          (BaseQueryJob.link st)
          (dictUpdate (BaseQueryJob.default_user_headers st) uh) o2).1) ∧
    ((r1.metaData.workDone ≠ 0 ∨ r1.done = true) →
      (BaseQueryJob.poll st uh (o1 :: o2 :: rest)).2.2.length = 1 ∧
      (BaseQueryJob.poll st uh (o1 :: o2 :: rest)).1 =
        Except.ok { events := r1.events, metadata := r1.metaData }) := by
  have hfe := fetch_ok_eq st (BaseQueryJob.link st)
      (dictUpdate (BaseQueryJob.default_user_headers st) uh) o1 r1 h1
  constructor
  · intro hw hd
    simp only [BaseQueryJob.poll, hfe, hagg]
    simp [hw, hd]
  · intro hcase
    simp only [BaseQueryJob.poll, hfe, hagg]
    rcases hcase with hw | hd
    · simp [hw]
    · simp [hd]

/-- Witness for C2: a streaming first fetch with `workDone = 0` and the job
not done is followed by exactly one more fetch, whose segment is returned. -/
theorem c2_witness :
    (BaseQueryJob.poll sampleJob [] [o1W, o2W]).2.2.length = 2 ∧
    (BaseQueryJob.poll sampleJob [] [o1W, o2W]).1 =
      Except.ok { events := ["e2"], metadata := (streamResponse ["e2"]).metaData } := by
  have h := (c2_streaming_warmup sampleJob [] o1W o2W [] warmupResponse rfl rfl).1 rfl rfl
  exact ⟨h.1, h.2.trans (by decide)⟩

/-- C3: a static handle's `poll` raises the exhausted error and performs zero
transport calls when `is_done` was already observed true, and otherwise
delegates to the engine's completion-aware poll. -/
theorem c3_static_exhausted (st : JobState) (uh : Headers) (oracle : List CallOutcome) :
    (st.is_done = true →
      StaticQueryJob.poll st uh oracle = (Except.error PollError.exhausted, st, [])) ∧
    (st.is_done = false →
      StaticQueryJob.poll st uh oracle = BaseQueryJob.poll st [] oracle) := by
  constructor <;> intro h <;> simp [StaticQueryJob.poll, h]

/-- Witness for C3: a second poll on a handle that already observed
`done = true` fails with the exhausted error and issues no transport call. -/
theorem c3_witness :
    StaticQueryJob.poll doneJob [] [] = (Except.error PollError.exhausted, doneJob, []) :=
  (c3_static_exhausted doneJob [] []).1 rfl

/-- C4: a transport failure with status code 404 makes `poll` raise the
expired-job error, any other status code propagates the original typed error
unchanged, and in both cases no further transport call is made (the same
holds for a failure inside the aggregate completion loop). -/
theorem c4_http_error_translation (st : JobState) (uh : Headers) (link : String)
    (headers : Headers) (g d : ℚ) (e : HttpError) (rest : List CallOutcome)
    (pr : PollResult) (hpr : aggregate_query_is_not_done pr.metadata = true) :
    BaseQueryJob.poll st uh ({ gateTime := g, result := Except.error e, doneTime := d } :: rest) =
      (Except.error (if e.status_code = 404 then PollError.expired e.message
         else PollError.http e.status_code e.message), st,
       [{ verb := "get", path := BaseQueryJob.link st,
          headers := dictUpdate (BaseQueryJob.default_user_headers st) uh }]) ∧
    BaseQueryJob.aggregateLoop link headers
        ({ gateTime := g, result := Except.error e, doneTime := d } :: rest) st pr =
      (Except.error (if e.status_code = 404 then PollError.expired e.message
         else PollError.http e.status_code e.message), st,
       [{ verb := "get", path := link, headers := headers }]) := by
  have hres : ({ gateTime := g, result := Except.error e, doneTime := d } : CallOutcome).result
      = Except.error e := rfl
  constructor
  · simp only [BaseQueryJob.poll]
    rw [fetch_error_eq st _ _ _ e hres]
  · simp only [BaseQueryJob.aggregateLoop, hpr, if_true]
    rw [fetch_error_eq st link headers _ e hres]

/-- Witness for C4: a 404 during the first fetch of a poll (and during an
aggregate-loop fetch) yields the expired-job error after exactly one call. -/
theorem c4_witness :
    BaseQueryJob.poll sampleJob []
        [{ gateTime := 0, result := Except.error { status_code := 404, message := "gone" },
           doneTime := 1 }] =
      (Except.error (PollError.expired "gone"), sampleJob,
       [{ verb := "get", path := BaseQueryJob.link sampleJob,
          headers := BaseQueryJob.default_user_headers sampleJob }]) ∧
    BaseQueryJob.aggregateLoop "l" []
        [{ gateTime := 0, result := Except.error { status_code := 404, message := "gone" },
           doneTime := 1 }] sampleJob
        { events := ["e"], metadata := (aggResponse 3 10).metaData } =
      (Except.error (PollError.expired "gone"), sampleJob,
       [{ verb := "get", path := "l", headers := [] }]) :=
  c4_http_error_translation sampleJob [] "l" [] 0 1 { status_code := 404, message := "gone" } []
    { events := ["e"], metadata := (aggResponse 3 10).metaData } (by decide)

/-- C5: a failing segment fetch leaves the whole handle state (in particular
`wait_time`, `is_done`, `is_cancelled` and `time_at_last_poll`) unchanged; a
successful fetch commits all four fields at once from the response and the
call's completion time. -/
theorem c5_state_commit (st : JobState) (link : String) (headers : Headers) (o : CallOutcome) :
    (∀ e, o.result = Except.error e →
      (BaseQueryJob.fetch_next_segment st link headers o).2.1 = st) ∧
    (∀ r, o.result = Except.ok r →
      (BaseQueryJob.fetch_next_segment st link headers o).2.1 =
        { st with wait_time := (r.metaData.pollAfter : ℚ), is_done := r.done,
                  is_cancelled := r.cancelled, time_at_last_poll := o.doneTime }) := by
  constructor
  · intro e he
    rw [fetch_error_eq st link headers o e he]
  · intro r hr
    rw [fetch_ok_eq st link headers o r hr]

/-- Witness for C5: a fetch failing with a 500 leaves the state unchanged. -/
theorem c5_witness :
    (BaseQueryJob.fetch_next_segment sampleJob "l" []
      { gateTime := 0, result := Except.error { status_code := 500, message := "boom" },
        doneTime := 1 }).2.1 = sampleJob :=
  (c5_state_commit sampleJob "l" []
    { gateTime := 0, result := Except.error { status_code := 500, message := "boom" },
      doneTime := 1 }).1 { status_code := 500, message := "boom" } rfl

/-- C6 counterexample: after a successful call completing at `T0 = 100` with
`waitTime = W = 1000` (milliseconds), a poll attempted at time 100 issues its
transport call at time 101, which is strictly earlier than `T0 + W = 1100`:
the code's sleep of `(waitTime - elapsed) / 1000` does not delay the next
call until `T0 + W`. -/
theorem c6_counterexample :
    pacedJob.time_at_last_poll = 100 ∧ pacedJob.wait_time = 1000 ∧
    BaseQueryJob.transport_call_time pacedJob 100 = 101 ∧
    BaseQueryJob.transport_call_time pacedJob 100 <
      pacedJob.time_at_last_poll + pacedJob.wait_time := by
  have hp : pacedJob =
      { query_id := "q", is_done := false, is_cancelled := false,
        time_at_last_poll := 100, wait_time := 1000,
        base_url := "http://localhost", repository := "r", user_token := "t" } := by
    decide
  rw [hp]
  refine ⟨rfl, rfl, ?_, ?_⟩ <;>
    norm_num [BaseQueryJob.transport_call_time, BaseQueryJob.wait_till_next_poll_delay]

/-- C6 (amended): for a poll attempted at `now` after a prior successful call
committed at `time_at_last_poll = T0` with `wait_time = W`, the transport
call happens no earlier than `T0 + W / 1000`; the delay applied is
`(W - elapsed) / 1000` when `elapsed < W` and nothing when that quantity is
non-positive (in particular the gate is a no-op on a fresh handle, whose
`time_at_last_poll` and `wait_time` start at 0). -/
theorem c6_pacing_amended (st : JobState) (now : ℚ)
    (h1 : st.time_at_last_poll ≤ now) :
    st.time_at_last_poll + st.wait_time / 1000 ≤ BaseQueryJob.transport_call_time st now ∧
    (st.wait_time ≤ now - st.time_at_last_poll →
      BaseQueryJob.transport_call_time st now = now) ∧
    (now - st.time_at_last_poll < st.wait_time →
      BaseQueryJob.transport_call_time st now =
        now + (st.wait_time - (now - st.time_at_last_poll)) / 1000) := by
  unfold BaseQueryJob.transport_call_time BaseQueryJob.wait_till_next_poll_delay
  by_cases hlt : now - st.time_at_last_poll < st.wait_time
  · rw [if_pos hlt]
    refine ⟨by linarith, fun hle => absurd hlt (not_lt.mpr hle), fun _ => rfl⟩
  · rw [if_neg hlt]
    have hge : st.wait_time ≤ now - st.time_at_last_poll := not_lt.mp hlt
    refine ⟨by linarith, fun _ => by ring, fun hlt2 => absurd hlt2 hlt⟩

/-- Witness for C6 (amended): the paced state's next transport call happens
no earlier than `time_at_last_poll + wait_time / 1000`. -/
theorem c6_witness :
    pacedJob.time_at_last_poll + pacedJob.wait_time / 1000 ≤
      BaseQueryJob.transport_call_time pacedJob 150 :=
  (c6_pacing_amended pacedJob 150 (by decide)).1

/-- C7: the result-stream generator's body is a single `yield self.poll()`,
so on a live job with two further successful streaming segments available and
the job not done, iterating the generator yields exactly one `PollResult`
(after one transport call) and then stops — it is not an unbounded
one-`PollResult`-per-pull stream. -/
theorem c7_generator_single_yield :
    (BaseQueryJob.poll_until_done sampleJob c7oracle).1 =
      Except.ok [{ events := ["e1"], metadata := (streamResponse ["e1"]).metaData }] ∧
    (BaseQueryJob.poll_until_done sampleJob c7oracle).2.1.is_done = false ∧
    (BaseQueryJob.poll_until_done sampleJob c7oracle).2.2.length = 1 := by
  decide

/-- C8 counterexample: the transport call of a poll on repository `"r"` and
query id `"q"` goes to `"dataspaces/r/queryjobs/q"`, which is not the path
`{repository}/queryjobs/{queryId}` = `"r/queryjobs/q"`. -/
theorem c8_counterexample :
    ((BaseQueryJob.poll sampleJob []
        [{ gateTime := 0, result := Except.ok (streamResponse ["e1"]), doneTime := 1 }]).2.2.map
      TransportCall.path) = ["dataspaces/r/queryjobs/q"] ∧
    sampleJob.repository ++ "/queryjobs/" ++ sampleJob.query_id = "r/queryjobs/q" ∧
    ("dataspaces/r/queryjobs/q" : String) ≠ "r/queryjobs/q" := by
  decide

/-- C8 (amended): every transport call issued by `poll` is a `"get"` on the
path `dataspaces/{repository}/queryjobs/{queryId}`, carrying the default
headers (`Content-Type: application/json` and
`Authorization: Bearer <token>`) merged with the caller-supplied headers,
where caller-supplied values win on key collision. -/
theorem c8_request_amended (st : JobState) (uh : Headers) (oracle : List CallOutcome)
    (hnd : (uh.map Prod.fst).Nodup) :
    (∀ c ∈ (BaseQueryJob.poll st uh oracle).2.2,
      c.verb = "get" ∧
      c.path = "dataspaces/" ++ st.repository ++ "/queryjobs/" ++ st.query_id ∧
      c.headers = dictUpdate (BaseQueryJob.default_user_headers st) uh) ∧
    BaseQueryJob.default_user_headers st =
      [("Content-Type", "application/json"), ("Authorization", "Bearer " ++ st.user_token)] ∧
    (∀ k v, (k, v) ∈ uh →
      dictGet (dictUpdate (BaseQueryJob.default_user_headers st) uh) k = some v) ∧
    (∀ k, k ∉ uh.map Prod.fst →
      dictGet (dictUpdate (BaseQueryJob.default_user_headers st) uh) k =
        dictGet (BaseQueryJob.default_user_headers st) k) := by
  refine ⟨?_, rfl, ?_, ?_⟩
  · intro c hc
    rw [poll_trace st uh oracle c hc]
    exact ⟨rfl, rfl, rfl⟩
  · intro k v hkv
    exact dictGet_dictUpdate_mem uh _ k v hnd hkv
  · intro k hk
    exact dictGet_dictUpdate_not_key uh _ k hk

/-- Witness for C8 (amended): a caller-supplied `Authorization` header wins
over the default one in the merged headers. -/
theorem c8_witness :
    dictGet (dictUpdate (BaseQueryJob.default_user_headers sampleJob)
        [("Authorization", "Bearer z")]) "Authorization" = some "Bearer z" :=
  (c8_request_amended sampleJob [("Authorization", "Bearer z")] [] (by decide)).2.2.1
    "Authorization" "Bearer z" (by decide)

/-- C9: disposal of a live job handle issues one best-effort `"delete"`
transport call on the job endpoint and never raises: any typed HTTP error
from the delete (including a 404 for an already-gone job) is caught and
discarded. -/
theorem c9_disposal_never_raises (st : JobState) (outcome : Except HttpError Unit) :
    (LiveQueryJob.del st outcome).1 = none ∧
    (LiveQueryJob.del st outcome).2 =
      { verb := "delete", path := BaseQueryJob.link st,
        headers := BaseQueryJob.default_user_headers st } := by
  cases outcome <;> exact ⟨rfl, rfl⟩

/-- C10: a static handle's `poll` discards caller-supplied keyword arguments
when delegating to the base poll, so its transport calls carry only the
default headers — unlike the live handle's poll, whose calls carry the
default headers merged with the caller-supplied ones. -/
theorem c10_static_discards_kwargs (st : JobState) (uh uh2 : Headers)
    (oracle : List CallOutcome) :
    StaticQueryJob.poll st uh oracle = StaticQueryJob.poll st uh2 oracle ∧
    (∀ c ∈ (StaticQueryJob.poll st uh oracle).2.2,
      c.headers = BaseQueryJob.default_user_headers st) ∧
    (∀ c ∈ (LiveQueryJob.poll st uh oracle).2.2,
      c.headers = dictUpdate (BaseQueryJob.default_user_headers st) uh) := by
  refine ⟨rfl, ?_, ?_⟩
  · intro c hc
    by_cases h : st.is_done = true
    · simp [StaticQueryJob.poll, h] at hc
    · simp only [StaticQueryJob.poll, h, if_false] at hc
      rw [poll_trace st [] oracle c hc]
      rfl
  · intro c hc
    rw [poll_trace st uh oracle c hc]

/-- Witness for C10: two different caller header sets give the same static
poll, and the static poll's transport call carries the default headers. -/
theorem c10_witness :
    StaticQueryJob.poll sampleJob [("X-Extra", "1")] c7oracle =
      StaticQueryJob.poll sampleJob [("Y", "2")] c7oracle ∧
    ({ verb := "get", path := "dataspaces/r/queryjobs/q",
       headers := BaseQueryJob.default_user_headers sampleJob } : TransportCall).headers =
      BaseQueryJob.default_user_headers sampleJob :=
  ⟨(c10_static_discards_kwargs sampleJob [("X-Extra", "1")] [("Y", "2")] c7oracle).1,
   (c10_static_discards_kwargs sampleJob [("X-Extra", "1")] [("Y", "2")] c7oracle).2.1 _
     (by decide)⟩
